import Mathlib

/-!
Verification of the session/authentication subsystem of the Forms-clone gRPC
backend. The definitions below are a shallow embedding of the JavaScript
source: the current, stateful variant of src/utils/auth.js together with the
service implementations (sessionsService, formsService, questionsService,
usersService). Time is an explicit natural-number parameter (seconds);
machine-level JSON web token strings are represented by the data they carry,
since jwt.sign is a deterministic function of the payload, the issue second
and the server secret.

The database layer (src/db/db.js and src/models) is not part of the sources;
those functions are modelled from the specification, as marked on each such
definition.
-/

namespace FormsClone

/-- gRPC status codes used by the service implementations. -/
inductive Status where
  | OK
  | UNAUTHENTICATED
  | PERMISSION_DENIED
  | INVALID_ARGUMENT
  | NOT_FOUND
  | ALREADY_EXISTS
  | INTERNAL
deriving DecidableEq, Repr

/-- The error object passed to the gRPC callback: a status code and a message. -/
structure GrpcError where
  code : Status
  message : String
deriving DecidableEq, Repr

/-- Seconds in the fixed token lifetime: jwt.sign is called with expiresIn 7d. -/
def sevenDays : Nat := 7 * 24 * 60 * 60

/-- A presented bearer token, as discriminated by the verification logic.
`absent` models a missing or empty token field (falsy in JS);
`garbage` models a string that is not a well-formed JWT signed with the
server secret (malformed input or signature mismatch);
`signed userId iat` models the string jwt.sign({userId}, JWT_SECRET,
{expiresIn: 7d}) issued at second `iat` — jwt.sign is deterministic, so the
string is a function of the payload and the issue second, and its embedded
expiry is `iat + sevenDays`. -/
inductive Token where
  | absent
  | garbage (raw : String)
  | signed (userId : Nat) (iat : Nat)
deriving DecidableEq, Repr

/-- generateToken from src/utils/auth.js: jwt.sign({userId}, JWT_SECRET, {expiresIn: 7d}). -/
def generateToken (userId : Nat) (now : Nat) : Token :=
  .signed userId now

/-- jwt.verify(token, JWT_SECRET) at time `now`: returns the decoded userId when
the signature checks out and the token is unexpired, otherwise throws (None). -/
def jwtVerify (t : Token) (now : Nat) : Option Nat :=
  match t with
  | .signed userId iat => if now < iat + sevenDays then some userId else none
  | _ => none

/-- A row of the users table. Password hashing is an opaque external
capability per the spec, so the stored credential is modelled as the
plaintext it verifies against. -/
structure User where
  id : Nat
  email : String
  password : String
  name : String
  createdAt : String
  updatedAt : String
deriving DecidableEq, Repr

/-- A row of the sessions table: the session store maps an issued token to
its subject. -/
structure SessionRec where
  userId : Nat
  token : Token
deriving DecidableEq, Repr

/-- A row of the forms table. -/
structure Form where
  id : Nat
  userId : Nat
  title : String
  description : String
  createdAt : String
  updatedAt : String
deriving DecidableEq, Repr

/-- A row of the questions table, scoped under its parent form. -/
structure Question where
  id : Nat
  formId : Nat
  text : String
  type : String
  options : List String
  required : Bool
  createdAt : String
  updatedAt : String
deriving DecidableEq, Repr

/-- An answer inside a response: a question id and the answer text. -/
structure Answer where
  questionId : String
  answer : String
deriving DecidableEq, Repr

/-- A row of the responses table, scoped under its parent form. -/
structure Response where
  id : Nat
  formId : Nat
  respondentName : String
  respondentEmail : String
  answers : List Answer
  createdAt : String
  updatedAt : String
deriving DecidableEq, Repr

/-- The persistent state: the SQLite database, with per-table id counters. -/
structure DB where
  users : List User
  sessions : List SessionRec
  forms : List Form
  questions : List Question
  responses : List Response
  nextFormId : Nat
  nextQuestionId : Nat
  nextResponseId : Nat
deriving DecidableEq, Repr

/-- The identity object built by verifyToken. The JS object literal carries
exactly the keys id, email and name; reading any other key (such as `role`)
yields undefined, modelled by the `role` field being `none`. verifyToken
always constructs the identity with `role := none`. -/
structure Identity where
  id : Nat
  email : String
  name : String
  role : Option String
deriving DecidableEq, Repr

/-- The row shape returned by the session lookup: the session joined with
its user record for enrichment (email, name). -/
structure SessionJoin where
  userId : Nat
  email : String
  name : String
deriving DecidableEq, Repr

/-- Modelled from the spec: sessionDb.createSession of the missing
src/db/db.js — Session Store `create(token, subjectId)`: persists a new
record; must succeed even if the same subject already has other live
sessions (no uniqueness constraint). -/
def sessionDb.createSession (db : DB) (userId : Nat) (t : Token) : DB :=
  { db with sessions := db.sessions ++ [⟨userId, t⟩] }

/-- Modelled from the spec: sessionDb.verifySession of the missing
src/db/db.js — Session Store `findLive(token)`: lookup by exact token match.
The stateful verifyToken reads session.email and session.name, so the lookup
joins the referenced user record; per spec section 4.3 step 3 a user record
that has meanwhile vanished yields no identity. -/
def sessionDb.verifySession (db : DB) (t : Token) : Option SessionJoin :=
  match db.sessions.find? (fun s => s.token == t) with
  | none => none
  | some s =>
    match db.users.find? (fun u => u.id == s.userId) with
    | none => none
    | some u => some ⟨s.userId, u.email, u.name⟩

/-- Modelled from the spec: sessionDb.deleteSession of the missing
src/db/db.js — Session Store `delete(token)`: removes the record by key;
idempotent (deleting a nonexistent token is not an error). -/
def sessionDb.deleteSession (db : DB) (t : Token) : DB :=
  { db with sessions := db.sessions.filter (fun s => !(s.token == t)) }

/-- Modelled from the spec: userDb.verifyUser of the missing src/db/db.js —
User store `verifyPassword(email, plaintext)`: resolve the email to a user
record and verify the secret against the stored credential; NotFound on
either failure. -/
def userDb.verifyUser (db : DB) (email password : String) : Option User :=
  match db.users.find? (fun u => u.email == email) with
  | none => none
  | some u => if u.password == password then some u else none

/-- Modelled from the spec: UserModel.getById of the missing
src/models/userModel.js — User store `findById(id)`: exact lookup, throws
User not found when absent (modelled as none). Ids arrive as strings off the
wire and SQLite compares them against the numeric key. -/
def UserModel.getById (db : DB) (userId : String) : Option User :=
  db.users.find? (fun u => toString u.id == userId)

/-- createSession from src/utils/auth.js (stateful variant): generate the
token, then store it in the database. -/
def auth.createSession (db : DB) (now : Nat) (userId : Nat) : Token × DB :=
  let t := generateToken userId now
  (t, sessionDb.createSession db userId t)

/-- verifyToken from src/utils/auth.js (stateful variant): reject a falsy
token, verify signature and expiration, then check the session exists in the
database; any failure returns null. -/
def verifyToken (db : DB) (now : Nat) (t : Token) : Option Identity :=
  if t = .absent then none
  else
    match jwtVerify t now with
    | none => none
    | some _ =>
      match sessionDb.verifySession db t with
      | none => none
      | some s => some ⟨s.userId, s.email, s.name, none⟩

/-- invalidateSession from src/utils/auth.js (stateful variant): delete the
session record for the token. -/
def auth.invalidateSession (db : DB) (t : Token) : DB :=
  sessionDb.deleteSession db t

/-! ### Remaining data-access functions (modelled from the spec) -/

/-- Update payload for a user record: each field is present or absent. -/
structure UserPatch where
  email : Option String
  password : Option String
  name : Option String
deriving DecidableEq, Repr

/-- Applies a patch to one user row, bumping updatedAt. -/
def applyUserPatch (now : Nat) (p : UserPatch) (u : User) : User :=
  { u with
    email := p.email.getD u.email,
    password := p.password.getD u.password,
    name := p.name.getD u.name,
    updatedAt := toString now }

/-- Modelled from the spec: UserModel.update of the missing
src/models/userModel.js — keyed update of the provided fields; throws User
not found (modelled as none) when no row matches. -/
def UserModel.update (db : DB) (now : Nat) (userId : String) (p : UserPatch) :
    Option (User × DB) :=
  match db.users.find? (fun u => toString u.id == userId) with
  | none => none
  | some u =>
    let u1 := applyUserPatch now p u
    some (u1, { db with
      users := db.users.map (fun v => if toString v.id == userId then applyUserPatch now p v else v) })

/-- Modelled from the spec: UserModel.delete of the missing
src/models/userModel.js — keyed delete, returning whether a row was removed. -/
def UserModel.delete (db : DB) (userId : String) : Bool × DB :=
  (db.users.any (fun u => toString u.id == userId),
   { db with users := db.users.filter (fun u => !(toString u.id == userId)) })

/-- Modelled from the spec: FormModel.create of the missing
src/models/formsModel.js — insert a new form row with a fresh id and
creation timestamps. -/
def FormModel.create (db : DB) (now : Nat) (userId : Nat) (title description : String) :
    Form × DB :=
  let f : Form := ⟨db.nextFormId, userId, title, description, toString now, toString now⟩
  (f, { db with forms := db.forms ++ [f], nextFormId := db.nextFormId + 1 })

/-- Modelled from the spec: FormModel.findAll of the missing
src/models/formsModel.js — all form rows. -/
def FormModel.findAll (db : DB) : List Form :=
  db.forms

/-- Modelled from the spec: FormModel.findById of the missing
src/models/formsModel.js — keyed lookup (the id arrives as a string off the
wire). -/
def FormModel.findById (db : DB) (formId : String) : Option Form :=
  db.forms.find? (fun f => toString f.id == formId)

/-- Update payload for a form row, as built by the UpdateForm handler. -/
structure FormPatch where
  userId : Nat
  title : String
  description : String
deriving DecidableEq, Repr

/-- Applies a form update to one form row, bumping updatedAt. -/
def applyFormPatch (now : Nat) (p : FormPatch) (f : Form) : Form :=
  { f with
    userId := p.userId,
    title := p.title,
    description := p.description,
    updatedAt := toString now }

/-- Modelled from the spec: FormModel.update of the missing
src/models/formsModel.js — keyed update of the provided fields, bumping
updatedAt; none when no row matches. -/
def FormModel.update (db : DB) (now : Nat) (formId : String) (p : FormPatch) :
    Option (Form × DB) :=
  match db.forms.find? (fun f => toString f.id == formId) with
  | none => none
  | some f =>
    let upd := db.forms.map (fun g => if toString g.id == formId then applyFormPatch now p g else g)
    some (applyFormPatch now p f, { db with forms := upd })

/-- Modelled from the spec: FormModel.delete of the missing
src/models/formsModel.js — keyed delete, returning whether a row was
removed. -/
def FormModel.delete (db : DB) (formId : String) : Bool × DB :=
  (db.forms.any (fun f => toString f.id == formId),
   { db with forms := db.forms.filter (fun f => !(toString f.id == formId)) })

/-- Question payload, as built by the CreateQuestion handler. -/
structure QuestionData where
  text : String
  type : String
  options : List String
  required : Bool
deriving DecidableEq, Repr

/-- Modelled from the spec: QuestionModel.create of the missing
src/models/questionsModel.js — insert a new question under its parent form;
throws Form not found (modelled as none) when the parent is absent. -/
def QuestionModel.create (db : DB) (now : Nat) (formId : String) (d : QuestionData) :
    Option (Question × DB) :=
  match db.forms.find? (fun f => toString f.id == formId) with
  | none => none
  | some f =>
    let q : Question :=
      ⟨db.nextQuestionId, f.id, d.text, d.type, d.options, d.required,
       toString now, toString now⟩
    some (q, { db with questions := db.questions ++ [q],
                       nextQuestionId := db.nextQuestionId + 1 })

/-- Modelled from the spec: QuestionModel.delete of the missing
src/models/questionsModel.js — delete the question scoped under the given
form, returning whether a row was removed. -/
def QuestionModel.delete (db : DB) (formId questionId : String) : Bool × DB :=
  let keep := db.questions.filter (fun q => !(toString q.formId == formId && toString q.id == questionId))
  (db.questions.any (fun q => toString q.formId == formId && toString q.id == questionId),
   { db with questions := keep })

/-- Modelled from the spec: QuestionModel.findById of the missing
src/models/questionsModel.js — exact lookup of the question scoped under
the given form. -/
def QuestionModel.findById (db : DB) (formId questionId : String) : Option Question :=
  db.questions.find? (fun q => toString q.formId == formId && toString q.id == questionId)

/-- Modelled from the spec: QuestionModel.findAll of the missing
src/models/questionsModel.js — all question rows of the given form. -/
def QuestionModel.findAll (db : DB) (formId : String) : List Question :=
  db.questions.filter (fun q => toString q.formId == formId)

/-- Applies a question update to one question row, bumping updatedAt. -/
def applyQuestionPatch (now : Nat) (d : QuestionData) (q : Question) : Question :=
  { q with
    text := d.text,
    type := d.type,
    options := d.options,
    required := d.required,
    updatedAt := toString now }

/-- Modelled from the spec: QuestionModel.update of the missing
src/models/questionsModel.js — keyed update of the provided fields under
the given form, bumping updatedAt; none when no row matches. -/
def QuestionModel.update (db : DB) (now : Nat) (formId questionId : String)
    (d : QuestionData) : Option (Question × DB) :=
  match db.questions.find? (fun q => toString q.formId == formId && toString q.id == questionId) with
  | none => none
  | some q =>
    let upd := db.questions.map (fun p =>
      if toString p.formId == formId && toString p.id == questionId then
        applyQuestionPatch now d p else p)
    some (applyQuestionPatch now d q, { db with questions := upd })

/-- Response payload, as built by the CreateResponse handler. -/
structure ResponseData where
  answers : List Answer
  respondentName : String
  respondentEmail : String
deriving DecidableEq, Repr

/-- Modelled from the spec: ResponseModel.create of the missing
src/models/responseModel.js — insert a new response under its parent form;
throws Form not found (modelled as none) when the parent is absent. -/
def ResponseModel.create (db : DB) (now : Nat) (formId : String) (d : ResponseData) :
    Option (Response × DB) :=
  match db.forms.find? (fun f => toString f.id == formId) with
  | none => none
  | some f =>
    let r : Response :=
      ⟨db.nextResponseId, f.id, d.respondentName, d.respondentEmail, d.answers,
       toString now, toString now⟩
    some (r, { db with responses := db.responses ++ [r],
                       nextResponseId := db.nextResponseId + 1 })

/-- Modelled from the spec: ResponseModel.findById of the missing
src/models/responseModel.js — exact lookup of the response scoped under the
given form. -/
def ResponseModel.findById (db : DB) (formId responseId : String) : Option Response :=
  db.responses.find? (fun r => toString r.formId == formId && toString r.id == responseId)

/-- Modelled from the spec: ResponseModel.findAll of the missing
src/models/responseModel.js — all response rows of the given form. -/
def ResponseModel.findAll (db : DB) (formId : String) : List Response :=
  db.responses.filter (fun r => toString r.formId == formId)

/-- Applies a response update to one response row, bumping updatedAt. -/
def applyResponsePatch (now : Nat) (d : ResponseData) (r : Response) : Response :=
  { r with
    answers := d.answers,
    respondentName := d.respondentName,
    respondentEmail := d.respondentEmail,
    updatedAt := toString now }

/-- Modelled from the spec: ResponseModel.update of the missing
src/models/responseModel.js — keyed update of the provided fields under the
given form, bumping updatedAt; none when no row matches. -/
def ResponseModel.update (db : DB) (now : Nat) (formId responseId : String)
    (d : ResponseData) : Option (Response × DB) :=
  match db.responses.find? (fun r => toString r.formId == formId && toString r.id == responseId) with
  | none => none
  | some r =>
    let upd := db.responses.map (fun p =>
      if toString p.formId == formId && toString p.id == responseId then
        applyResponsePatch now d p else p)
    some (applyResponsePatch now d r, { db with responses := upd })

/-- Modelled from the spec: ResponseModel.delete of the missing
src/models/responseModel.js — delete the response scoped under the given
form, returning whether a row was removed. -/
def ResponseModel.delete (db : DB) (formId responseId : String) : Bool × DB :=
  let keep := db.responses.filter (fun r => !(toString r.formId == formId && toString r.id == responseId))
  (db.responses.any (fun r => toString r.formId == formId && toString r.id == responseId),
   { db with responses := keep })

/-- Modelled from the spec: UserModel.getAll of the missing
src/models/userModel.js — all user rows. -/
def UserModel.getAll (db : DB) : List User :=
  db.users

/-! ### SessionsService (src/services/sessionsService.js, stateful variant) -/

/-- CreateSessionResponse: the token and the stringified user id. -/
structure CreateSessionResp where
  token : Token
  userId : String
deriving DecidableEq, Repr

/-- A {success, message} response (DeleteSessionResponse and friends). -/
structure SuccessResp where
  success : Bool
  message : String
deriving DecidableEq, Repr

/-- ValidateSessionResponse: the resolved user, with timestamps. -/
structure ValidateSessionResp where
  id : String
  email : String
  name : String
  createdAt : String
  updatedAt : String
deriving DecidableEq, Repr

/-- CreateSession (login): validate presence of email and password, verify
the credentials, then mint and store a session token. Proto3 string fields
default to the empty string, so a missing field is the falsy empty string. -/
def CreateSession (db : DB) (now : Nat) (email password : String) :
    Except GrpcError CreateSessionResp × DB :=
  if email = "" ∨ password = "" then
    (.error ⟨.INVALID_ARGUMENT, "Email and password are required"⟩, db)
  else
    match userDb.verifyUser db email password with
    | none => (.error ⟨.UNAUTHENTICATED, "Invalid email or password"⟩, db)
    | some user =>
      let r := auth.createSession db now user.id
      (.ok ⟨r.1, toString user.id⟩, r.2)

/-- DeleteSession (logout): validate the token first, then invalidate the
session record in the database. -/
def DeleteSession (db : DB) (now : Nat) (t : Token) :
    Except GrpcError SuccessResp × DB :=
  match verifyToken db now t with
  | none => (.error ⟨.UNAUTHENTICATED, "Invalid or expired token"⟩, db)
  | some _ => (.ok ⟨true, "Logged out successfully"⟩, auth.invalidateSession db t)

/-- ValidateSession: validate the token, then fetch the full user row for the
timestamps; if that database query fails, fall back to the identity carried
by the session (with empty timestamps). -/
def ValidateSession (db : DB) (now : Nat) (t : Token) :
    Except GrpcError ValidateSessionResp :=
  match verifyToken db now t with
  | none => .error ⟨.UNAUTHENTICATED, "Invalid or expired token"⟩
  | some u =>
    match UserModel.getById db (toString u.id) with
    | some fullUser =>
      .ok ⟨toString fullUser.id, fullUser.email, fullUser.name,
           fullUser.createdAt, fullUser.updatedAt⟩
    | none => .ok ⟨toString u.id, u.email, u.name, "", ""⟩

/-! ### FormsService (src/services/formsService.js) -/

/-- A Form message as returned on the wire. -/
structure FormResp where
  id : Nat
  userId : Nat
  title : String
  description : String
  createdAt : String
  updatedAt : String
deriving DecidableEq, Repr

/-- Maps a form row to its wire message. -/
def Form.toResp (f : Form) : FormResp :=
  ⟨f.id, f.userId, f.title, f.description, f.createdAt, f.updatedAt⟩

/-- CreateForm: authenticate, validate the title, then create the form owned
by the authenticated user. -/
def CreateForm (db : DB) (now : Nat) (t : Token) (title description : String) :
    Except GrpcError FormResp × DB :=
  match verifyToken db now t with
  | none => (.error ⟨.UNAUTHENTICATED, "Invalid or expired token"⟩, db)
  | some u =>
    if title = "" then (.error ⟨.INVALID_ARGUMENT, "Title is required"⟩, db)
    else
      let r := FormModel.create db now u.id title description
      (.ok r.1.toResp, r.2)

/-- GetForm: authenticate, then look the form up by id. -/
def GetForm (db : DB) (now : Nat) (t : Token) (formId : String) :
    Except GrpcError FormResp :=
  match verifyToken db now t with
  | none => .error ⟨.UNAUTHENTICATED, "Invalid or expired token"⟩
  | some _ =>
    match FormModel.findById db formId with
    | none => .error ⟨.NOT_FOUND, "Form with ID " ++ formId ++ " does not exist"⟩
    | some f => .ok f.toResp

/-- ListForms: authenticate, fetch all forms, and return only those whose
userId equals the authenticated user id. -/
def ListForms (db : DB) (now : Nat) (t : Token) :
    Except GrpcError (List FormResp) :=
  match verifyToken db now t with
  | none => .error ⟨.UNAUTHENTICATED, "Invalid or expired token"⟩
  | some u =>
    .ok (((FormModel.findAll db).filter (fun f => f.userId == u.id)).map Form.toResp)

/-- UpdateForm: authenticate, then update the form. Under the proto loader
with defaults enabled every string field is present, so the undefined guards
of the source always pass and title and description are always written. -/
def UpdateForm (db : DB) (now : Nat) (t : Token) (formId title description : String) :
    Except GrpcError FormResp × DB :=
  match verifyToken db now t with
  | none => (.error ⟨.UNAUTHENTICATED, "Invalid or expired token"⟩, db)
  | some u =>
    match FormModel.update db now formId ⟨u.id, title, description⟩ with
    | none => (.error ⟨.NOT_FOUND, "Form with ID " ++ formId ++ " does not exist"⟩, db)
    | some r => (.ok r.1.toResp, r.2)

/-- DeleteForm: authenticate, then delete the form by id. -/
def DeleteForm (db : DB) (now : Nat) (t : Token) (formId : String) :
    Except GrpcError SuccessResp × DB :=
  match verifyToken db now t with
  | none => (.error ⟨.UNAUTHENTICATED, "Invalid or expired token"⟩, db)
  | some _ =>
    let r := FormModel.delete db formId
    if r.1 then (.ok ⟨true, "Form deleted successfully"⟩, r.2)
    else (.error ⟨.NOT_FOUND, "Form with ID " ++ formId ++ " does not exist"⟩, r.2)

/-! ### QuestionsService (src/services/questionsService.js) -/

/-- A Question message as returned on the wire. -/
structure QuestionResp where
  id : Nat
  text : String
  type : String
  options : List String
  required : Bool
  createdAt : String
  updatedAt : String
deriving DecidableEq, Repr

/-- Maps a question row to its wire message. -/
def Question.toResp (q : Question) : QuestionResp :=
  ⟨q.id, q.text, q.type, q.options, q.required, q.createdAt, q.updatedAt⟩

/-- The JS a-or-else-b idiom `a || b` on a possibly-undefined string field. -/
def jsOrStr (a : Option String) (b : String) : String :=
  match a with
  | some s => if s = "" then b else s
  | none => b

/-- The JS conditional `a !== undefined ? a : (b || false)` on booleans. -/
def jsOrBool (a : Option Bool) (b : Bool) : Bool :=
  match a with
  | some v => v
  | none => b

/-- CreateQuestion: resolve the alternate field naming conventions
(questionText or text, questionType or type, isRequired or required — the
proto only defines text, type and required, so the alternates are undefined
on the wire), authenticate, validate the input, then create the question
under its form; a missing parent form maps to NOT_FOUND. -/
def CreateQuestion (db : DB) (now : Nat) (t : Token) (formId : String)
    (questionText questionType : Option String) (text type_ : String)
    (options : List String) (isRequired : Option Bool) (required : Bool) :
    Except GrpcError QuestionResp × DB :=
  let finalText := jsOrStr questionText text
  let finalType := jsOrStr questionType type_
  let finalRequired := jsOrBool isRequired (required || false)
  match verifyToken db now t with
  | none => (.error ⟨.UNAUTHENTICATED, "Invalid or expired token"⟩, db)
  | some _ =>
    if formId = "" ∨ finalText = "" ∨ finalType = "" then
      (.error ⟨.INVALID_ARGUMENT, "Form ID, question text, and question type are required"⟩, db)
    else
      match QuestionModel.create db now formId ⟨finalText, finalType, options, finalRequired⟩ with
      | none => (.error ⟨.NOT_FOUND, "Form not found"⟩, db)
      | some r => (.ok r.1.toResp, r.2)

/-- GetQuestion: authenticate, then look the question up under its form. -/
def GetQuestion (db : DB) (now : Nat) (t : Token) (formId questionId : String) :
    Except GrpcError QuestionResp :=
  match verifyToken db now t with
  | none => .error ⟨.UNAUTHENTICATED, "Invalid or expired token"⟩
  | some _ =>
    match QuestionModel.findById db formId questionId with
    | none => .error ⟨.NOT_FOUND, "Question with ID " ++ questionId ++ " does not exist in form " ++ formId⟩
    | some q => .ok q.toResp

/-- ListQuestions: authenticate, then list the questions of the form. -/
def ListQuestions (db : DB) (now : Nat) (t : Token) (formId : String) :
    Except GrpcError (List QuestionResp) :=
  match verifyToken db now t with
  | none => .error ⟨.UNAUTHENTICATED, "Invalid or expired token"⟩
  | some _ => .ok ((QuestionModel.findAll db formId).map Question.toResp)

/-- UpdateQuestion: authenticate, then update the question under its form.
Under the proto loader with defaults enabled every field is present, so the
undefined guards of the source always pass and all four fields are written. -/
def UpdateQuestion (db : DB) (now : Nat) (t : Token) (formId questionId : String)
    (text type_ : String) (options : List String) (required : Bool) :
    Except GrpcError QuestionResp × DB :=
  match verifyToken db now t with
  | none => (.error ⟨.UNAUTHENTICATED, "Invalid or expired token"⟩, db)
  | some _ =>
    match QuestionModel.update db now formId questionId ⟨text, type_, options, required⟩ with
    | none => (.error ⟨.NOT_FOUND, "Question with ID " ++ questionId ++ " does not exist in form " ++ formId⟩, db)
    | some r => (.ok r.1.toResp, r.2)

/-- DeleteQuestion: authenticate, then delete the question scoped under its
form. -/
def DeleteQuestion (db : DB) (now : Nat) (t : Token) (formId questionId : String) :
    Except GrpcError SuccessResp × DB :=
  match verifyToken db now t with
  | none => (.error ⟨.UNAUTHENTICATED, "Invalid or expired token"⟩, db)
  | some _ =>
    let r := QuestionModel.delete db formId questionId
    if r.1 then (.ok ⟨true, "Question deleted successfully"⟩, r.2)
    else (.error ⟨.NOT_FOUND, "Question with ID " ++ questionId ++ " does not exist in form " ++ formId⟩, r.2)

/-! ### ResponsesService (src/services/responsesService.js) -/

/-- A Response message as returned on the wire. -/
structure ResponseResp where
  id : Nat
  formId : Nat
  respondentName : String
  respondentEmail : String
  answers : List Answer
  createdAt : String
  updatedAt : String
deriving DecidableEq, Repr

/-- Maps a response row to its wire message. -/
def Response.toResp (r : Response) : ResponseResp :=
  ⟨r.id, r.formId, r.respondentName, r.respondentEmail, r.answers, r.createdAt, r.updatedAt⟩

/-- CreateResponse: authenticate, validate that the form id and at least one
answer are present, then create the response under its form; a missing
parent form maps to NOT_FOUND. -/
def CreateResponse (db : DB) (now : Nat) (t : Token) (formId : String)
    (answers : List Answer) (respondentName respondentEmail : String) :
    Except GrpcError ResponseResp × DB :=
  match verifyToken db now t with
  | none => (.error ⟨.UNAUTHENTICATED, "Invalid or expired token"⟩, db)
  | some _ =>
    if formId = "" ∨ answers = [] then
      (.error ⟨.INVALID_ARGUMENT, "Form ID and at least one answer are required"⟩, db)
    else
      match ResponseModel.create db now formId
          ⟨answers, respondentName, respondentEmail⟩ with
      | none => (.error ⟨.NOT_FOUND, "Form not found"⟩, db)
      | some r => (.ok r.1.toResp, r.2)

/-- GetResponse: authenticate, then look the response up under its form. -/
def GetResponse (db : DB) (now : Nat) (t : Token) (formId responseId : String) :
    Except GrpcError ResponseResp :=
  match verifyToken db now t with
  | none => .error ⟨.UNAUTHENTICATED, "Invalid or expired token"⟩
  | some _ =>
    match ResponseModel.findById db formId responseId with
    | none => .error ⟨.NOT_FOUND, "Response with ID " ++ responseId ++ " does not exist for form " ++ formId⟩
    | some r => .ok r.toResp

/-- ListResponses: authenticate, then list the responses of the form. -/
def ListResponses (db : DB) (now : Nat) (t : Token) (formId : String) :
    Except GrpcError (List ResponseResp) :=
  match verifyToken db now t with
  | none => .error ⟨.UNAUTHENTICATED, "Invalid or expired token"⟩
  | some _ => .ok ((ResponseModel.findAll db formId).map Response.toResp)

/-- UpdateResponse: authenticate, then update the response under its form.
Under the proto loader with defaults enabled every field is present, so the
undefined guards of the source always pass and all three fields are
written. -/
def UpdateResponse (db : DB) (now : Nat) (t : Token) (formId responseId : String)
    (answers : List Answer) (respondentName respondentEmail : String) :
    Except GrpcError ResponseResp × DB :=
  match verifyToken db now t with
  | none => (.error ⟨.UNAUTHENTICATED, "Invalid or expired token"⟩, db)
  | some _ =>
    match ResponseModel.update db now formId responseId
        ⟨answers, respondentName, respondentEmail⟩ with
    | none => (.error ⟨.NOT_FOUND, "Response with ID " ++ responseId ++ " does not exist for form " ++ formId⟩, db)
    | some r => (.ok r.1.toResp, r.2)

/-- DeleteResponse: authenticate, then delete the response scoped under its
form. -/
def DeleteResponse (db : DB) (now : Nat) (t : Token) (formId responseId : String) :
    Except GrpcError SuccessResp × DB :=
  match verifyToken db now t with
  | none => (.error ⟨.UNAUTHENTICATED, "Invalid or expired token"⟩, db)
  | some _ =>
    let r := ResponseModel.delete db formId responseId
    if r.1 then (.ok ⟨true, "Response deleted successfully"⟩, r.2)
    else (.error ⟨.NOT_FOUND, "Response with ID " ++ responseId ++ " does not exist for form " ++ formId⟩, r.2)

/-! ### UsersService (src/services/usersService.js) -/

/-- A User message as returned on the wire. -/
structure UserResp where
  id : String
  email : String
  name : String
  createdAt : String
  updatedAt : String
  passwordUpdated : Bool
deriving DecidableEq, Repr

/-- Whitespace characters excluded by the \s class of the email pattern. -/
def isWsChar (c : Char) : Bool :=
  c == ' ' || c == '\t' || c == '\n' || c == '\r'

/-- Renders the test of the email pattern (one run of characters that are
neither whitespace nor @, a literal @, another such run, a literal dot, and
a final such run): exactly one @, a nonempty local part, and a domain with a
dot that is neither its first nor its last character, no whitespace
anywhere. -/
def emailRegexTest (s : String) : Bool :=
  match s.splitOn "@" with
  | [localPart, domain] =>
    localPart ≠ "" && localPart.all (fun c => !(isWsChar c)) &&
    domain.all (fun c => !(isWsChar c)) &&
    ((domain.data.drop 1).dropLast.any (fun c => c == '.'))
  | _ => false

/-- GetUser: authenticate, allow only the user fetching their own data or an
admin (the identity has no role key, so the admin disjunct reads undefined),
then look the user up. -/
def GetUser (db : DB) (now : Nat) (t : Token) (userId : String) :
    Except GrpcError UserResp :=
  match verifyToken db now t with
  | none => .error ⟨.UNAUTHENTICATED, "Invalid or expired token"⟩
  | some au =>
    if toString au.id ≠ userId ∧ au.role ≠ some "admin" then
      .error ⟨.PERMISSION_DENIED, "You can only access your own user data"⟩
    else
      match UserModel.getById db userId with
      | none => .error ⟨.NOT_FOUND, "User not found"⟩
      | some user =>
        .ok ⟨toString user.id, user.email, user.name, user.createdAt, user.updatedAt, false⟩

/-- ListUsers: authenticate, then list all users; the admin-role check is
only a comment in the source, so every authenticated user may list. -/
def ListUsers (db : DB) (now : Nat) (t : Token) :
    Except GrpcError (List UserResp) :=
  match verifyToken db now t with
  | none => .error ⟨.UNAUTHENTICATED, "Invalid or expired token"⟩
  | some _ =>
    .ok ((UserModel.getAll db).map (fun user =>
      ⟨toString user.id, user.email, user.name, user.createdAt, user.updatedAt, false⟩))

/-- UpdateUser: authenticate, allow only self-updates, validate the provided
fields (proto3 strings default to empty, so a missing field is the empty
string and skips its validation and its write), then update the user row. -/
def UpdateUser (db : DB) (now : Nat) (t : Token) (userId : String)
    (email password name : String) :
    Except GrpcError UserResp × DB :=
  match verifyToken db now t with
  | none => (.error ⟨.UNAUTHENTICATED, "Invalid or expired token"⟩, db)
  | some au =>
    if toString au.id ≠ userId then
      (.error ⟨.PERMISSION_DENIED, "You can only update your own user data"⟩, db)
    else if email ≠ "" ∧ ¬ emailRegexTest email then
      (.error ⟨.INVALID_ARGUMENT, "Invalid email format"⟩, db)
    else if password ≠ "" ∧ password.length < 6 then
      (.error ⟨.INVALID_ARGUMENT, "Password must be at least 6 characters"⟩, db)
    else
      let patch : UserPatch :=
        ⟨if email = "" then none else some email,
         if password = "" then none else some password,
         if name = "" then none else some name⟩
      match UserModel.update db now userId patch with
      | none => (.error ⟨.NOT_FOUND, "User not found"⟩, db)
      | some r =>
        (.ok ⟨toString r.1.id, r.1.email, r.1.name, r.1.createdAt, r.1.updatedAt,
              password ≠ ""⟩, r.2)

/-- DeleteUser: authenticate, allow only self-deletion, then delete the user
row; NOT_FOUND when no row was removed. -/
def DeleteUser (db : DB) (now : Nat) (t : Token) (userId : String) :
    Except GrpcError SuccessResp × DB :=
  match verifyToken db now t with
  | none => (.error ⟨.UNAUTHENTICATED, "Invalid or expired token"⟩, db)
  | some au =>
    if toString au.id ≠ userId then
      (.error ⟨.PERMISSION_DENIED, "You can only delete your own account"⟩, db)
    else
      let r := UserModel.delete db userId
      if r.1 then (.ok ⟨true, "User deleted successfully"⟩, r.2)
      else (.error ⟨.NOT_FOUND, "User not found"⟩, r.2)

/-! ### Auxiliary predicates and concrete fixtures -/

/-- Whether a handler result is a success (the callback got a response, not
an error). -/
def isOkResult {α : Type} : Except GrpcError α → Bool
  | .ok _ => true
  | .error _ => false

deriving instance DecidableEq for Except

/-- Referential integrity of the session store: every session record refers
to an existing user. Holds in every state reachable without user deletion;
user deletion does not cascade to sessions (spec section 9). -/
def DB.SessionsWf (db : DB) : Prop :=
  ∀ s ∈ db.sessions, ∃ u ∈ db.users, u.id = s.userId

instance (db : DB) : Decidable db.SessionsWf := by
  unfold DB.SessionsWf
  infer_instance

/-- A registered user for concrete scenarios. -/
def demoUser : User := ⟨1, "real@user.com", "pw123456", "Real User", "0", "0"⟩

/-- A second registered user. -/
def otherUser : User := ⟨2, "other@user.com", "pw654321", "Other User", "0", "0"⟩

/-- A live token of demoUser, issued at second 100. -/
def demoToken : Token := Token.signed 1 100

/-- A live token of otherUser, issued at second 100. -/
def otherToken : Token := Token.signed 2 100

/-- A form owned by demoUser. -/
def demoForm : Form := ⟨1, 1, "Mine", "", "0", "0"⟩

/-- A form owned by otherUser. -/
def otherForm : Form := ⟨2, 2, "Theirs", "", "0", "0"⟩

/-- A populated database: two users, a live session each, one form each. -/
def demoDB : DB :=
  ⟨[demoUser, otherUser], [⟨1, demoToken⟩, ⟨2, otherToken⟩], [demoForm, otherForm], [], [], 3, 1, 1⟩

/-- A database with one registered user and no live session. -/
def freshDB : DB := ⟨[demoUser], [], [], [], [], 1, 1, 1⟩

/-- The state after one login of demoUser at second 100 against freshDB. -/
def freshDB1 : DB := (CreateSession freshDB 100 "real@user.com" "pw123456").2

/-- The state after a second login of demoUser, also at second 100. -/
def freshDB2 : DB := (CreateSession freshDB1 100 "real@user.com" "pw123456").2

/-- A user who will delete their own account while their session lives. -/
def cexUser : User := ⟨7, "c2@example.com", "pw123456", "C2 User", "0", "0"⟩

/-- The live token of cexUser, issued at second 100. -/
def cexToken : Token := Token.signed 7 100

/-- A database holding cexUser and their live session. -/
def cexDB : DB := ⟨[cexUser], [⟨7, cexToken⟩], [], [], [], 1, 1, 1⟩

/-- The state after cexUser deletes their own account: the user row is gone
but the session row remains (no cascade). -/
def cexDB1 : DB := (DeleteUser cexDB 100 cexToken "7").2

/-! ### Helper lemmas about the verification pipeline -/

theorem verifyToken_eq_none_iff (db : DB) (now : Nat) (t : Token) :
    verifyToken db now t = none ↔
      (jwtVerify t now = none ∨ sessionDb.verifySession db t = none) := by
  unfold verifyToken
  by_cases habs : t = Token.absent
  · subst habs
    simp [jwtVerify]
  · rw [if_neg habs]
    cases hj : jwtVerify t now with
    | none => simp
    | some uid =>
      cases hs : sessionDb.verifySession db t with
      | none => simp
      | some s => simp

theorem verifySession_isSome (db : DB) (t : Token)
    (hmem : ∃ s ∈ db.sessions, s.token = t)
    (hjoin : ∀ s ∈ db.sessions, s.token = t → ∃ u ∈ db.users, u.id = s.userId) :
    (sessionDb.verifySession db t).isSome := by
  unfold sessionDb.verifySession
  cases hf : db.sessions.find? (fun s => s.token == t) with
  | none =>
    rw [List.find?_eq_none] at hf
    obtain ⟨s, hs, hst⟩ := hmem
    exact absurd (by simpa using hst) (by simpa using hf s hs)
  | some s =>
    have hps : s.token = t := by simpa using List.find?_some hf
    have hsmem : s ∈ db.sessions := List.mem_of_find?_eq_some hf
    obtain ⟨u, hu, huid⟩ := hjoin s hsmem hps
    cases hg : db.users.find? (fun v => v.id == s.userId) with
    | none =>
      rw [List.find?_eq_none] at hg
      exact absurd (by simpa using huid) (by simpa using hg u hu)
    | some v => simp [hg]

theorem verifyToken_isSome_of (db : DB) (now uid iat : Nat)
    (hexp : now < iat + sevenDays)
    (hsess : (sessionDb.verifySession db (Token.signed uid iat)).isSome) :
    (verifyToken db now (Token.signed uid iat)).isSome := by
  unfold verifyToken
  obtain ⟨s, hs⟩ := Option.isSome_iff_exists.mp hsess
  simp [jwtVerify, hexp, hs]

theorem verifySession_after_delete (db : DB) (t : Token) :
    sessionDb.verifySession (sessionDb.deleteSession db t) t = none := by
  unfold sessionDb.verifySession sessionDb.deleteSession
  have hnone : (db.sessions.filter (fun s => !(s.token == t))).find?
      (fun s => s.token == t) = none := by
    rw [List.find?_eq_none]
    intro s hs
    simpa using (List.mem_filter.mp hs).2
  simp [hnone]

theorem verifyToken_after_delete (db : DB) (now : Nat) (t : Token) :
    verifyToken (sessionDb.deleteSession db t) now t = none := by
  rw [verifyToken_eq_none_iff]
  exact Or.inr (verifySession_after_delete db t)

theorem verifyToken_none_of_bad (db : DB) (now : Nat) (t : Token)
    (hbad : t = Token.absent ∨ (∃ raw, t = Token.garbage raw) ∨
      (∃ uid iat, t = Token.signed uid iat ∧ iat + sevenDays ≤ now) ∨
      (∀ s ∈ db.sessions, s.token ≠ t)) :
    verifyToken db now t = none := by
  rw [verifyToken_eq_none_iff]
  rcases hbad with h | ⟨raw, h⟩ | ⟨uid, iat, h, hexp⟩ | h
  · left; subst h; rfl
  · left; subst h; rfl
  · left; subst h; simp [jwtVerify]; omega
  · right
    unfold sessionDb.verifySession
    have hnone : db.sessions.find? (fun s => s.token == t) = none := by
      rw [List.find?_eq_none]
      intro s hs
      simpa using h s hs
    simp [hnone]

theorem verifyUser_some (db : DB) (email password : String) (u : User)
    (h : userDb.verifyUser db email password = some u) :
    u ∈ db.users ∧ u.email = email ∧ u.password = password := by
  unfold userDb.verifyUser at h
  cases hf : db.users.find? (fun v => v.email == email) with
  | none => rw [hf] at h; cases h
  | some v =>
    rw [hf] at h
    by_cases hp : (v.password == password) = true
    · simp only [hp, if_true] at h
      obtain rfl : v = u := by injection h
      refine ⟨List.mem_of_find?_eq_some hf, ?_, by simpa using hp⟩
      simpa using List.find?_some hf
    · simp only [hp, if_false] at h
      cases h

theorem createSession_ok (db : DB) (now : Nat) (email password : String)
    (r : CreateSessionResp) (db1 : DB)
    (h : CreateSession db now email password = (.ok r, db1)) :
    ∃ user, userDb.verifyUser db email password = some user ∧
      user ∈ db.users ∧
      r.token = Token.signed user.id now ∧
      db1 = { db with sessions := db.sessions ++ [⟨user.id, Token.signed user.id now⟩] } := by
  unfold CreateSession at h
  by_cases he : email = "" ∨ password = ""
  · rw [if_pos he] at h
    cases (Prod.mk.injEq _ _ _ _ ▸ h).1
  · rw [if_neg he] at h
    cases hv : userDb.verifyUser db email password with
    | none =>
      rw [hv] at h
      cases (Prod.mk.injEq _ _ _ _ ▸ h).1
    | some user =>
      rw [hv] at h
      simp only [auth.createSession, generateToken, sessionDb.createSession,
        Prod.mk.injEq] at h
      obtain ⟨h1, h2⟩ := h
      refine ⟨user, rfl, (verifyUser_some db email password user hv).1, ?_, h2.symm⟩
      obtain rfl : CreateSessionResp.mk (Token.signed user.id now) (toString user.id) = r := by
        injection h1
      rfl

/-! ### Claim theorems -/

/-- C1: Revocation effectiveness — for every token `t` returned by a
successful CreateSession (login), ValidateSession succeeds before
DeleteSession is called, and after DeleteSession returns success,
ValidateSession on the same token returns UNAUTHENTICATED, even though the
cryptographic expiry of `t` has not been reached. -/
theorem revocation_effective (db : DB) (now now1 now2 : Nat)
    (email password : String) (r : CreateSessionResp) (db1 : DB)
    (hwf : db.SessionsWf)
    (hcreate : CreateSession db now email password = (.ok r, db1))
    (hexp1 : now1 < now + sevenDays) (hexp2 : now2 < now + sevenDays) :
    isOkResult (ValidateSession db1 now1 r.token) = true ∧
    (DeleteSession db1 now1 r.token).1 = .ok ⟨true, "Logged out successfully"⟩ ∧
    ValidateSession (DeleteSession db1 now1 r.token).2 now2 r.token =
      .error ⟨.UNAUTHENTICATED, "Invalid or expired token"⟩ := by
  obtain ⟨user, hv, humem, htok, hdb1⟩ := createSession_ok db now email password r db1 hcreate
  subst hdb1
  rw [htok]
  have hmem : ∃ s ∈ ({ db with
      sessions := db.sessions ++ [⟨user.id, Token.signed user.id now⟩] } : DB).sessions,
      s.token = Token.signed user.id now := by
    exact ⟨⟨user.id, Token.signed user.id now⟩, by simp, rfl⟩
  have hjoin : ∀ s ∈ ({ db with
      sessions := db.sessions ++ [⟨user.id, Token.signed user.id now⟩] } : DB).sessions,
      s.token = Token.signed user.id now →
      ∃ u ∈ ({ db with
        sessions := db.sessions ++ [⟨user.id, Token.signed user.id now⟩] } : DB).users,
        u.id = s.userId := by
    intro s hs _
    rcases List.mem_append.mp hs with h | h
    · exact hwf s h
    · simp only [List.mem_singleton] at h
      subst h
      exact ⟨user, humem, rfl⟩
  have hvs := verifySession_isSome _ _ hmem hjoin
  have hvt := verifyToken_isSome_of _ now1 user.id now hexp1 hvs
  obtain ⟨u1, hu1⟩ := Option.isSome_iff_exists.mp hvt
  refine ⟨?_, ?_, ?_⟩
  · cases hg : UserModel.getById ({ db with
      sessions := db.sessions ++ [⟨user.id, Token.signed user.id now⟩] } : DB)
      (toString u1.id) <;>
      simp [ValidateSession, hu1, hg, isOkResult]
  · simp [DeleteSession, hu1]
  · simp only [DeleteSession, hu1, auth.invalidateSession]
    simp [ValidateSession, verifyToken_after_delete]

/-- C1 witness: the revocation scenario at concrete inputs — demoUser logs
in at second 100, validates and logs out at second 200, and the token is
dead at second 300, well before its seven-day expiry. -/
theorem revocation_effective_witness :
    isOkResult (ValidateSession freshDB1 200 (Token.signed 1 100)) = true ∧
    (DeleteSession freshDB1 200 (Token.signed 1 100)).1 =
      .ok ⟨true, "Logged out successfully"⟩ ∧
    ValidateSession (DeleteSession freshDB1 200 (Token.signed 1 100)).2 300
      (Token.signed 1 100) =
      .error ⟨.UNAUTHENTICATED, "Invalid or expired token"⟩ :=
  revocation_effective freshDB 100 200 300 "real@user.com" "pw123456"
    ⟨Token.signed 1 100, "1"⟩ freshDB1 (by decide) (by decide) (by decide) (by decide)

/-- C2 counterexample: conditions (a) signature verifies, (b) the current
time is before the expiry, and (c) a session record for the token exists in
the session store all hold in cexDB1 — the state reached when cexUser
deletes their own account while their session lives — yet verifyToken does
not resolve to an identity, because the session subject no longer exists in
the user store. -/
theorem token_validity_counterexample :
    jwtVerify cexToken 200 = some 7 ∧
    (⟨7, cexToken⟩ : SessionRec) ∈ cexDB1.sessions ∧
    verifyToken cexDB1 200 cexToken = none := by decide

/-- C2 (amended): in every state whose session records all refer to existing
users, verifyToken resolves to an identity if and only if (a) the token is
signed with the server secret, (b) the current time is before its expiry,
and (c) a session record for it exists in the session store; and every
rejected token — malformed, expired, or revoked alike — produces the
identical externally observable rejection from ValidateSession. -/
theorem token_validity_characterization (db : DB) (now : Nat) (t t1 t2 : Token)
    (hwf : db.SessionsWf)
    (h1 : verifyToken db now t1 = none) (h2 : verifyToken db now t2 = none) :
    ((verifyToken db now t).isSome ↔
      ((∃ uid iat, t = Token.signed uid iat ∧ now < iat + sevenDays) ∧
       (∃ s ∈ db.sessions, s.token = t))) ∧
    (ValidateSession db now t1 =
      .error ⟨.UNAUTHENTICATED, "Invalid or expired token"⟩ ∧
     ValidateSession db now t1 = ValidateSession db now t2) := by
  constructor
  · constructor
    · intro hsome
      obtain ⟨u, hu⟩ := Option.isSome_iff_exists.mp hsome
      unfold verifyToken at hu
      by_cases habs : t = Token.absent
      · rw [if_pos habs] at hu; cases hu
      · rw [if_neg habs] at hu
        cases hj : jwtVerify t now with
        | none => rw [hj] at hu; cases hu
        | some uid =>
          rw [hj] at hu
          cases hs : sessionDb.verifySession db t with
          | none => rw [hs] at hu; cases hu
          | some s =>
            constructor
            · cases t with
              | absent => exact absurd rfl habs
              | garbage raw => cases hj
              | signed uid0 iat0 =>
                refine ⟨uid0, iat0, rfl, ?_⟩
                by_contra hlt
                simp [jwtVerify, hlt] at hj
            · unfold sessionDb.verifySession at hs
              cases hf : db.sessions.find? (fun s => s.token == t) with
              | none => rw [hf] at hs; cases hs
              | some s0 =>
                exact ⟨s0, List.mem_of_find?_eq_some hf, by simpa using List.find?_some hf⟩
    · rintro ⟨⟨uid, iat, rfl, hexp⟩, hmem⟩
      refine verifyToken_isSome_of db now uid iat hexp ?_
      refine verifySession_isSome db _ hmem ?_
      intro s hs _
      exact hwf s hs
  · refine ⟨?_, ?_⟩
    · simp [ValidateSession, h1]
    · simp [ValidateSession, h1, h2]

/-- C2 witness: the characterization and the uniform rejection instantiated
on demoDB with a live token, a garbage token and a revoked-or-never-issued
token. -/
theorem token_validity_characterization_witness :
    ((verifyToken demoDB 200 demoToken).isSome ↔
      ((∃ uid iat, demoToken = Token.signed uid iat ∧ 200 < iat + sevenDays) ∧
       (∃ s ∈ demoDB.sessions, s.token = demoToken))) ∧
    (ValidateSession demoDB 200 (Token.garbage "zz") =
      .error ⟨.UNAUTHENTICATED, "Invalid or expired token"⟩ ∧
     ValidateSession demoDB 200 (Token.garbage "zz") =
      ValidateSession demoDB 200 (Token.signed 9 100)) :=
  token_validity_characterization demoDB 200 demoToken (Token.garbage "zz")
    (Token.signed 9 100) (by decide) (by decide) (by decide)

/-- C3: Idempotent revocation — DeleteSession on a live token succeeds, and
a second DeleteSession on the same token fails with UNAUTHENTICATED; in
general DeleteSession on any token that is not currently live returns
UNAUTHENTICATED and does not report success. -/
theorem logout_requires_live_token (db : DB) (now now2 : Nat) (t : Token)
    (u : Identity) (db0 : DB) (now0 : Nat) (t0 : Token)
    (hlive : verifyToken db now t = some u)
    (hdead : verifyToken db0 now0 t0 = none) :
    (DeleteSession db now t).1 = .ok ⟨true, "Logged out successfully"⟩ ∧
    (DeleteSession (DeleteSession db now t).2 now2 t).1 =
      .error ⟨.UNAUTHENTICATED, "Invalid or expired token"⟩ ∧
    DeleteSession db0 now0 t0 =
      (.error ⟨.UNAUTHENTICATED, "Invalid or expired token"⟩, db0) := by
  refine ⟨?_, ?_, ?_⟩
  · simp [DeleteSession, hlive]
  · simp only [DeleteSession, hlive, auth.invalidateSession]
    simp [verifyToken_after_delete]
  · simp [DeleteSession, hdead]

/-- C3 witness: demoUser logs out at second 200; the repeated logout at
second 250 is rejected, as is a logout with a never-issued token. -/
theorem logout_requires_live_token_witness :
    (DeleteSession demoDB 200 demoToken).1 = .ok ⟨true, "Logged out successfully"⟩ ∧
    (DeleteSession (DeleteSession demoDB 200 demoToken).2 250 demoToken).1 =
      .error ⟨.UNAUTHENTICATED, "Invalid or expired token"⟩ ∧
    DeleteSession demoDB 200 (Token.signed 9 100) =
      (.error ⟨.UNAUTHENTICATED, "Invalid or expired token"⟩, demoDB) :=
  logout_requires_live_token demoDB 200 250 demoToken
    ⟨1, "real@user.com", "Real User", none⟩ demoDB 200 (Token.signed 9 100)
    (by decide) (by decide)

/-- C4: Vanished-user rejection — for every token that passes signature and
expiry verification and whose session record is live, if the user record for
the session subject can no longer be retrieved from the user store,
ValidateSession returns UNAUTHENTICATED rather than a successful identity. -/
theorem vanished_user_rejected (db : DB) (now : Nat) (t : Token) (s : SessionRec)
    (uid iat : Nat)
    (hts : t = Token.signed uid iat) (hexp : now < iat + sevenDays)
    (hfind : db.sessions.find? (fun s => s.token == t) = some s)
    (hnouser : ∀ u ∈ db.users, u.id ≠ s.userId) :
    ValidateSession db now t =
      .error ⟨.UNAUTHENTICATED, "Invalid or expired token"⟩ := by
  have hvs : sessionDb.verifySession db t = none := by
    unfold sessionDb.verifySession
    rw [hfind]
    have hg : db.users.find? (fun u => u.id == s.userId) = none := by
      rw [List.find?_eq_none]
      intro u hu
      simpa using hnouser u hu
    simp [hg]
  have hvt : verifyToken db now t = none :=
    (verifyToken_eq_none_iff db now t).mpr (Or.inr hvs)
  simp [ValidateSession, hvt]

/-- C4 witness: in cexDB1 — reached when cexUser deleted their own account —
the live, unexpired session token no longer validates. -/
theorem vanished_user_rejected_witness :
    ValidateSession cexDB1 200 cexToken =
      .error ⟨.UNAUTHENTICATED, "Invalid or expired token"⟩ :=
  vanished_user_rejected cexDB1 200 cexToken ⟨7, cexToken⟩ 7 100
    (by decide) (by decide) (by decide) (by decide)

/-- C5: Guard gating with no side effect — every CRUD RPC handler of the
forms, questions, responses and users services, invoked with a token that is
absent, malformed, expired, or revoked, returns UNAUTHENTICATED and leaves
the data store untouched (the mutating handlers return the state unchanged;
the read handlers take no state at all). -/
theorem guard_gating (db : DB) (now : Nat) (t : Token)
    (title description formId questionId responseId userId email password
      name respondentName respondentEmail : String)
    (questionText questionType : Option String) (qText qType : String)
    (options : List String) (isRequired : Option Bool) (required : Bool)
    (answers : List Answer)
    (hbad : t = Token.absent ∨ (∃ raw, t = Token.garbage raw) ∨
      (∃ uid iat, t = Token.signed uid iat ∧ iat + sevenDays ≤ now) ∨
      (∀ s ∈ db.sessions, s.token ≠ t)) :
    CreateForm db now t title description =
      (.error ⟨.UNAUTHENTICATED, "Invalid or expired token"⟩, db) ∧
    GetForm db now t formId =
      .error ⟨.UNAUTHENTICATED, "Invalid or expired token"⟩ ∧
    ListForms db now t =
      .error ⟨.UNAUTHENTICATED, "Invalid or expired token"⟩ ∧
    UpdateForm db now t formId title description =
      (.error ⟨.UNAUTHENTICATED, "Invalid or expired token"⟩, db) ∧
    DeleteForm db now t formId =
      (.error ⟨.UNAUTHENTICATED, "Invalid or expired token"⟩, db) ∧
    CreateQuestion db now t formId questionText questionType qText qType
        options isRequired required =
      (.error ⟨.UNAUTHENTICATED, "Invalid or expired token"⟩, db) ∧
    GetQuestion db now t formId questionId =
      .error ⟨.UNAUTHENTICATED, "Invalid or expired token"⟩ ∧
    ListQuestions db now t formId =
      .error ⟨.UNAUTHENTICATED, "Invalid or expired token"⟩ ∧
    UpdateQuestion db now t formId questionId qText qType options required =
      (.error ⟨.UNAUTHENTICATED, "Invalid or expired token"⟩, db) ∧
    DeleteQuestion db now t formId questionId =
      (.error ⟨.UNAUTHENTICATED, "Invalid or expired token"⟩, db) ∧
    CreateResponse db now t formId answers respondentName respondentEmail =
      (.error ⟨.UNAUTHENTICATED, "Invalid or expired token"⟩, db) ∧
    GetResponse db now t formId responseId =
      .error ⟨.UNAUTHENTICATED, "Invalid or expired token"⟩ ∧
    ListResponses db now t formId =
      .error ⟨.UNAUTHENTICATED, "Invalid or expired token"⟩ ∧
    UpdateResponse db now t formId responseId answers respondentName respondentEmail =
      (.error ⟨.UNAUTHENTICATED, "Invalid or expired token"⟩, db) ∧
    DeleteResponse db now t formId responseId =
      (.error ⟨.UNAUTHENTICATED, "Invalid or expired token"⟩, db) ∧
    GetUser db now t userId =
      .error ⟨.UNAUTHENTICATED, "Invalid or expired token"⟩ ∧
    ListUsers db now t =
      .error ⟨.UNAUTHENTICATED, "Invalid or expired token"⟩ ∧
    UpdateUser db now t userId email password name =
      (.error ⟨.UNAUTHENTICATED, "Invalid or expired token"⟩, db) ∧
    DeleteUser db now t userId =
      (.error ⟨.UNAUTHENTICATED, "Invalid or expired token"⟩, db) := by
  have hvt := verifyToken_none_of_bad db now t hbad
  refine ⟨?_, ?_, ?_, ?_, ?_, ?_, ?_, ?_, ?_, ?_, ?_, ?_, ?_, ?_, ?_, ?_, ?_, ?_, ?_⟩ <;>
    simp [CreateForm, GetForm, ListForms, UpdateForm, DeleteForm,
      CreateQuestion, GetQuestion, ListQuestions, UpdateQuestion, DeleteQuestion,
      CreateResponse, GetResponse, ListResponses, UpdateResponse, DeleteResponse,
      GetUser, ListUsers, UpdateUser, DeleteUser, hvt]

/-- C5 witness: with an absent token, all nineteen authenticated CRUD
handlers reject and demoDB is unchanged. -/
theorem guard_gating_witness :
    CreateForm demoDB 200 Token.absent "T" "D" =
      (.error ⟨.UNAUTHENTICATED, "Invalid or expired token"⟩, demoDB) ∧
    GetForm demoDB 200 Token.absent "1" =
      .error ⟨.UNAUTHENTICATED, "Invalid or expired token"⟩ ∧
    ListForms demoDB 200 Token.absent =
      .error ⟨.UNAUTHENTICATED, "Invalid or expired token"⟩ ∧
    UpdateForm demoDB 200 Token.absent "1" "T" "D" =
      (.error ⟨.UNAUTHENTICATED, "Invalid or expired token"⟩, demoDB) ∧
    DeleteForm demoDB 200 Token.absent "1" =
      (.error ⟨.UNAUTHENTICATED, "Invalid or expired token"⟩, demoDB) ∧
    CreateQuestion demoDB 200 Token.absent "1" none none "Q" "shorttext"
        [] none false =
      (.error ⟨.UNAUTHENTICATED, "Invalid or expired token"⟩, demoDB) ∧
    GetQuestion demoDB 200 Token.absent "1" "1" =
      .error ⟨.UNAUTHENTICATED, "Invalid or expired token"⟩ ∧
    ListQuestions demoDB 200 Token.absent "1" =
      .error ⟨.UNAUTHENTICATED, "Invalid or expired token"⟩ ∧
    UpdateQuestion demoDB 200 Token.absent "1" "1" "Q" "shorttext" [] false =
      (.error ⟨.UNAUTHENTICATED, "Invalid or expired token"⟩, demoDB) ∧
    DeleteQuestion demoDB 200 Token.absent "1" "1" =
      (.error ⟨.UNAUTHENTICATED, "Invalid or expired token"⟩, demoDB) ∧
    CreateResponse demoDB 200 Token.absent "1" [⟨"1", "A"⟩] "R" "r@e.x" =
      (.error ⟨.UNAUTHENTICATED, "Invalid or expired token"⟩, demoDB) ∧
    GetResponse demoDB 200 Token.absent "1" "1" =
      .error ⟨.UNAUTHENTICATED, "Invalid or expired token"⟩ ∧
    ListResponses demoDB 200 Token.absent "1" =
      .error ⟨.UNAUTHENTICATED, "Invalid or expired token"⟩ ∧
    UpdateResponse demoDB 200 Token.absent "1" "1" [⟨"1", "A"⟩] "R" "r@e.x" =
      (.error ⟨.UNAUTHENTICATED, "Invalid or expired token"⟩, demoDB) ∧
    DeleteResponse demoDB 200 Token.absent "1" "1" =
      (.error ⟨.UNAUTHENTICATED, "Invalid or expired token"⟩, demoDB) ∧
    GetUser demoDB 200 Token.absent "1" =
      .error ⟨.UNAUTHENTICATED, "Invalid or expired token"⟩ ∧
    ListUsers demoDB 200 Token.absent =
      .error ⟨.UNAUTHENTICATED, "Invalid or expired token"⟩ ∧
    UpdateUser demoDB 200 Token.absent "1" "" "" "X" =
      (.error ⟨.UNAUTHENTICATED, "Invalid or expired token"⟩, demoDB) ∧
    DeleteUser demoDB 200 Token.absent "1" =
      (.error ⟨.UNAUTHENTICATED, "Invalid or expired token"⟩, demoDB) :=
  guard_gating demoDB 200 Token.absent "T" "D" "1" "1" "1" "1" "" "" "X"
    "R" "r@e.x" none none "Q" "shorttext" [] none false [⟨"1", "A"⟩] (Or.inl rfl)

/-- C6: No information leak on login — a registered email with a wrong
password and an unregistered email with any password produce identical
CreateSession failures: the same UNAUTHENTICATED status and the same generic
message, with the state unchanged. -/
theorem login_no_leak (db : DB) (now : Nat) (e1 p1 e2 p2 : String)
    (he1 : e1 ≠ "") (hp1 : p1 ≠ "") (he2 : e2 ≠ "") (hp2 : p2 ≠ "")
    (hreg : ∃ u ∈ db.users, u.email = e1)
    (hwrong : ∀ u ∈ db.users, u.email = e1 → u.password ≠ p1)
    (hnone : ∀ u ∈ db.users, u.email ≠ e2) :
    CreateSession db now e1 p1 =
      (.error ⟨.UNAUTHENTICATED, "Invalid email or password"⟩, db) ∧
    CreateSession db now e1 p1 = CreateSession db now e2 p2 := by
  have hv1 : userDb.verifyUser db e1 p1 = none := by
    unfold userDb.verifyUser
    cases hf : db.users.find? (fun u => u.email == e1) with
    | none => rfl
    | some u =>
      have hmemu : u ∈ db.users := List.mem_of_find?_eq_some hf
      have hemail : u.email = e1 := by simpa using List.find?_some hf
      have hpw : u.password ≠ p1 := hwrong u hmemu hemail
      simp [hpw]
  have hv2 : userDb.verifyUser db e2 p2 = none := by
    unfold userDb.verifyUser
    have hf : db.users.find? (fun u => u.email == e2) = none := by
      rw [List.find?_eq_none]
      intro u hu
      simpa using hnone u hu
    simp [hf]
  have h1 : ¬(e1 = "" ∨ p1 = "") := by tauto
  have h2 : ¬(e2 = "" ∨ p2 = "") := by tauto
  constructor
  · simp [CreateSession, h1, hv1]
  · simp [CreateSession, h1, h2, hv1, hv2]

/-- C6 witness: a wrong password for the registered demo email and an
arbitrary password for an unregistered email are indistinguishable. -/
theorem login_no_leak_witness :
    CreateSession demoDB 200 "real@user.com" "wrongpass" =
      (.error ⟨.UNAUTHENTICATED, "Invalid email or password"⟩, demoDB) ∧
    CreateSession demoDB 200 "real@user.com" "wrongpass" =
      CreateSession demoDB 200 "nonexistent@user.com" "anything" :=
  login_no_leak demoDB 200 "real@user.com" "wrongpass"
    "nonexistent@user.com" "anything" (by decide) (by decide) (by decide)
    (by decide) (by decide) (by decide) (by decide)

/-- C7 counterexample: two successful CreateSession calls for the same user
within the same second return the very same token, because jwt.sign is a
deterministic function of the payload, the issue second and the secret — so
the two tokens are not distinct, and deleting the session record for one of
them also revokes the other. -/
theorem independent_sessions_counterexample :
    isOkResult (CreateSession freshDB 100 "real@user.com" "pw123456").1 = true ∧
    isOkResult (CreateSession freshDB1 100 "real@user.com" "pw123456").1 = true ∧
    (CreateSession freshDB 100 "real@user.com" "pw123456").1 =
      (CreateSession freshDB1 100 "real@user.com" "pw123456").1 ∧
    verifyToken (DeleteSession freshDB2 150 (Token.signed 1 100)).2 150
      (Token.signed 1 100) = none := by decide

/-- C7 (amended): two successful CreateSession calls for the same user at
distinct issue seconds produce two distinct tokens, both of which validate
independently, and DeleteSession on one of the two leaves the other valid. -/
theorem independent_sessions (db : DB) (now1 now2 now3 : Nat)
    (email password : String) (r1 r2 : CreateSessionResp) (db1 db2 : DB)
    (hwf : db.SessionsWf)
    (h1 : CreateSession db now1 email password = (.ok r1, db1))
    (h2 : CreateSession db1 now2 email password = (.ok r2, db2))
    (hne : now1 ≠ now2)
    (hv1 : now3 < now1 + sevenDays) (hv2 : now3 < now2 + sevenDays) :
    r1.token ≠ r2.token ∧
    (verifyToken db2 now3 r1.token).isSome = true ∧
    (verifyToken db2 now3 r2.token).isSome = true ∧
    (verifyToken (DeleteSession db2 now3 r1.token).2 now3 r2.token).isSome = true := by
  obtain ⟨user, hvu, humem, htok1, hdb1⟩ :=
    createSession_ok db now1 email password r1 db1 h1
  obtain ⟨user2, hvu2, _, htok2, hdb2⟩ :=
    createSession_ok db1 now2 email password r2 db2 h2
  have husers1 : db1.users = db.users := by rw [hdb1]
  have huser2 : user2 = user := by
    have hsame : userDb.verifyUser db1 email password =
        userDb.verifyUser db email password := by
      unfold userDb.verifyUser
      rw [husers1]
    rw [hsame, hvu] at hvu2
    exact (Option.some.injEq _ _ ▸ hvu2).symm
  rw [huser2] at htok2 hdb2
  have hsess2 : db2.sessions =
      (db.sessions ++ [⟨user.id, Token.signed user.id now1⟩]) ++
        [⟨user.id, Token.signed user.id now2⟩] := by
    rw [hdb2, hdb1]
  have husers2 : db2.users = db.users := by rw [hdb2, husers1]
  have hnetok : Token.signed user.id now1 ≠ Token.signed user.id now2 := by
    intro h
    exact hne (by injection h)
  have hjoin2 : ∀ s ∈ db2.sessions, ∃ u ∈ db2.users, u.id = s.userId := by
    intro s hs
    rw [hsess2] at hs
    rw [husers2]
    rcases List.mem_append.mp hs with hs' | hs'
    · rcases List.mem_append.mp hs' with hd | hd
      · exact hwf s hd
      · simp only [List.mem_singleton] at hd
        subst hd
        exact ⟨user, humem, rfl⟩
    · simp only [List.mem_singleton] at hs'
      subst hs'
      exact ⟨user, humem, rfl⟩
  have hvs1 : (sessionDb.verifySession db2 (Token.signed user.id now1)).isSome := by
    refine verifySession_isSome db2 _ ⟨⟨user.id, Token.signed user.id now1⟩, ?_, rfl⟩
      (fun s hs _ => hjoin2 s hs)
    rw [hsess2]
    simp
  have hvs2 : (sessionDb.verifySession db2 (Token.signed user.id now2)).isSome := by
    refine verifySession_isSome db2 _ ⟨⟨user.id, Token.signed user.id now2⟩, ?_, rfl⟩
      (fun s hs _ => hjoin2 s hs)
    rw [hsess2]
    simp
  have hver1 := verifyToken_isSome_of db2 now3 user.id now1 hv1 hvs1
  have hver2 := verifyToken_isSome_of db2 now3 user.id now2 hv2 hvs2
  have hver1t : (verifyToken db2 now3 r1.token).isSome := by
    rw [htok1]
    exact hver1
  have hver2t : (verifyToken db2 now3 r2.token).isSome := by
    rw [htok2]
    exact hver2
  obtain ⟨uu, huu⟩ := Option.isSome_iff_exists.mp hver1t
  have hdel : (DeleteSession db2 now3 r1.token).2 =
      sessionDb.deleteSession db2 r1.token := by
    simp [DeleteSession, huu, auth.invalidateSession]
  have hver2' : (verifyToken (sessionDb.deleteSession db2 r1.token) now3
      r2.token).isSome := by
    rw [htok1, htok2]
    refine verifyToken_isSome_of _ now3 user.id now2 hv2 ?_
    refine verifySession_isSome _ _
      ⟨⟨user.id, Token.signed user.id now2⟩, ?_, rfl⟩ ?_
    · refine List.mem_filter.mpr ⟨?_, ?_⟩
      · rw [hsess2]; simp
      · simpa using hnetok.symm
    · intro s hs _
      have hs' : s ∈ db2.sessions := (List.mem_filter.mp hs).1
      exact hjoin2 s hs'
  refine ⟨?_, hver1t, hver2t, ?_⟩
  · rw [htok1, htok2]
    exact hnetok
  · rw [hdel]
    exact hver2'

/-- C7 witness: two logins of demoUser at seconds 100 and 101 give distinct
tokens, both valid at second 150, and revoking the first leaves the second
valid. -/
theorem independent_sessions_witness :
    (CreateSessionResp.mk (Token.signed 1 100) "1").token ≠
      (CreateSessionResp.mk (Token.signed 1 101) "1").token ∧
    (verifyToken ((CreateSession freshDB1 101 "real@user.com" "pw123456").2) 150
      (Token.signed 1 100)).isSome = true ∧
    (verifyToken ((CreateSession freshDB1 101 "real@user.com" "pw123456").2) 150
      (Token.signed 1 101)).isSome = true ∧
    (verifyToken (DeleteSession
        ((CreateSession freshDB1 101 "real@user.com" "pw123456").2) 150
        (Token.signed 1 100)).2 150 (Token.signed 1 101)).isSome = true :=
  independent_sessions freshDB 100 101 150 "real@user.com" "pw123456"
    ⟨Token.signed 1 100, "1"⟩ ⟨Token.signed 1 101, "1"⟩ freshDB1
    ((CreateSession freshDB1 101 "real@user.com" "pw123456").2)
    (by decide) (by decide) (by decide) (by decide) (by decide) (by decide)

/-- C8: Self-access enforcement — for every authenticated identity and every
target userId different from that identity, UpdateUser and DeleteUser return
PERMISSION_DENIED and leave the store unmodified. -/
theorem self_access_enforced (db : DB) (now : Nat) (t : Token) (u : Identity)
    (userId email password name : String)
    (hauth : verifyToken db now t = some u)
    (hne : toString u.id ≠ userId) :
    UpdateUser db now t userId email password name =
      (.error ⟨.PERMISSION_DENIED, "You can only update your own user data"⟩, db) ∧
    DeleteUser db now t userId =
      (.error ⟨.PERMISSION_DENIED, "You can only delete your own account"⟩, db) := by
  constructor <;> simp [UpdateUser, DeleteUser, hauth, hne]

/-- C8 witness: demoUser, authenticated with their live token, can neither
update nor delete otherUser. -/
theorem self_access_enforced_witness :
    UpdateUser demoDB 200 demoToken "2" "" "" "X" =
      (.error ⟨.PERMISSION_DENIED, "You can only update your own user data"⟩, demoDB) ∧
    DeleteUser demoDB 200 demoToken "2" =
      (.error ⟨.PERMISSION_DENIED, "You can only delete your own account"⟩, demoDB) :=
  self_access_enforced demoDB 200 demoToken
    ⟨1, "real@user.com", "Real User", none⟩ "2" "" "" "X" (by decide) (by decide)

/-- C9: ListForms is owner-scoped — every form in a successful ListForms
response has userId equal to the authenticated caller id; forms owned by
other users never appear. -/
theorem listForms_owner_scoped (db : DB) (now : Nat) (t : Token) (u : Identity)
    (l : List FormResp) (f : FormResp)
    (hauth : verifyToken db now t = some u)
    (hok : ListForms db now t = .ok l) (hf : f ∈ l) :
    f.userId = u.id := by
  unfold ListForms at hok
  rw [hauth] at hok
  obtain rfl : ((FormModel.findAll db).filter (fun g => g.userId == u.id)).map
      Form.toResp = l := by injection hok
  obtain ⟨g, hg, rfl⟩ := List.mem_map.mp hf
  have hpred := (List.mem_filter.mp hg).2
  simpa [Form.toResp] using hpred

/-- C9 witness: in demoDB, which holds one form of each user, demoUser lists
exactly their own form. -/
theorem listForms_owner_scoped_witness :
    (Form.toResp demoForm).userId =
      (Identity.mk 1 "real@user.com" "Real User" none).id :=
  listForms_owner_scoped demoDB 200 demoToken
    ⟨1, "real@user.com", "Real User", none⟩ [Form.toResp demoForm]
    (Form.toResp demoForm) (by decide) (by decide) (by decide)

/-- C10: The admin branch of GetUser is unreachable — the identity produced
by token verification carries no role key, so the admin disjunct never
holds, and GetUser denies access exactly when the authenticated id differs
from the target userId. -/
theorem getUser_self_only (db : DB) (now : Nat) (t : Token) (u : Identity)
    (userId : String)
    (hauth : verifyToken db now t = some u) :
    u.role = none ∧
    (GetUser db now t userId =
        .error ⟨.PERMISSION_DENIED, "You can only access your own user data"⟩ ↔
      toString u.id ≠ userId) := by
  have hrole : u.role = none := by
    unfold verifyToken at hauth
    by_cases habs : t = Token.absent
    · rw [if_pos habs] at hauth; cases hauth
    · rw [if_neg habs] at hauth
      cases hj : jwtVerify t now with
      | none => rw [hj] at hauth; cases hauth
      | some uid =>
        rw [hj] at hauth
        cases hs : sessionDb.verifySession db t with
        | none => rw [hs] at hauth; cases hauth
        | some s =>
          rw [hs] at hauth
          obtain rfl : Identity.mk s.userId s.email s.name none = u := by
            injection hauth
          rfl
  refine ⟨hrole, ?_, ?_⟩
  · intro hpd
    by_cases heq : toString u.id = userId
    · exfalso
      have hcond : ¬(toString u.id ≠ userId ∧ u.role ≠ some "admin") := by
        simp [heq]
      simp only [GetUser, hauth, if_neg hcond] at hpd
      cases hg : UserModel.getById db userId with
      | none => rw [hg] at hpd; simp at hpd
      | some user => rw [hg] at hpd; simp at hpd
    · exact heq
  · intro hne
    have hcond : toString u.id ≠ userId ∧ u.role ≠ some "admin" :=
      ⟨hne, by simp [hrole]⟩
    simp only [GetUser, hauth, if_pos hcond]

/-- C10 witness: demoUser, authenticated with their live token, has no role
key and is denied access to otherUser but not to themselves. -/
theorem getUser_self_only_witness :
    (Identity.mk 1 "real@user.com" "Real User" none).role = none ∧
    (GetUser demoDB 200 demoToken "2" =
        .error ⟨.PERMISSION_DENIED, "You can only access your own user data"⟩ ↔
      toString (Identity.mk 1 "real@user.com" "Real User" none).id ≠ "2") :=
  getUser_self_only demoDB 200 demoToken
    ⟨1, "real@user.com", "Real User", none⟩ "2" (by decide)

end FormsClone
